import Mathlib

/-!
Verification development for the TubeTK
`RegisterImageToTubesUsingRigidTransformTuner.py` application.

The embedding below translates the core logic of the tuner — the run
orchestrator (`RegistrationTunerLogic.__init__`, `run_analysis`, `close`),
the optimization-trace state (`set_iteration`, `set_number_of_iterations`)
and the per-iteration transform replay in
`RegistrationTunerMainWindow.add_tubes` — into executable Lean definitions.

Numeric parameters are modelled over `ℚ`.  The trigonometric functions used
implicitly by `pyqtgraph`'s `rotate` call are passed in as abstract
functions `cosf sinf : ℚ → ℚ`, so that a rotation "about the X axis by
angle `a` (radians)" becomes the standard rotation matrix with entries
`cosf a` and `sinf a`; all claims about the replay concern the order of
composition and the identity case, which are independent of the concrete
trigonometric values.
-/

namespace TubeTK

/-- A 3-vector of rationals (a point or translation offset in world space). -/
@[ext]
structure V3 where
  x : ℚ
  y : ℚ
  z : ℚ
deriving Repr, DecidableEq

instance : Add V3 := ⟨fun a b => ⟨a.x + b.x, a.y + b.y, a.z + b.z⟩⟩

instance : Neg V3 := ⟨fun a => ⟨-a.x, -a.y, -a.z⟩⟩

instance : Sub V3 := ⟨fun a b => ⟨a.x - b.x, a.y - b.y, a.z - b.z⟩⟩

/-- Rotation about the world X axis: the standard right-handed rotation
matrix applied to `p`, with `c`/`s` the cosine and sine of the angle
(`glRotate` semantics of `pyqtgraph`'s `rotate(angle, 1, 0, 0)`). -/
def rotX (c s : ℚ) (p : V3) : V3 :=
  ⟨p.x, c * p.y - s * p.z, s * p.y + c * p.z⟩

/-- Rotation about the world Y axis by the angle with cosine `c`, sine `s`. -/
def rotY (c s : ℚ) (p : V3) : V3 :=
  ⟨c * p.x + s * p.z, p.y, -s * p.x + c * p.z⟩

/-- Rotation about the world Z axis by the angle with cosine `c`, sine `s`. -/
def rotZ (c s : ℚ) (p : V3) : V3 :=
  ⟨c * p.x - s * p.y, s * p.x + c * p.y, p.z⟩

/-- One transform operation applied to a `GLMeshItem`, as issued by
`add_tubes` (lines 528-542 of the source): either a `translate` or a
`rotate` about one of the world axes (`local=False`). -/
inductive MeshOp where
  | translate (d : V3)
  | rotateX (c s : ℚ)
  | rotateY (c s : ℚ)
  | rotateZ (c s : ℚ)
deriving Repr, DecidableEq

/-- The action of a single mesh operation on a point. -/
def applyOp : MeshOp → V3 → V3
  | .translate d, p => p + d
  | .rotateX c s, p => rotX c s p
  | .rotateY c s, p => rotY c s p
  | .rotateZ c s, p => rotZ c s p

/-- The point transformation of a mesh after the operations `ops` have been
issued in order.  `pyqtgraph`'s `GLGraphicsItem.applyTransform` with
`local=False` premultiplies (`transform := tr * transform`), so the
operation issued first acts on the point first; the fold accumulates the
composition accordingly, starting from the identity transform. -/
def meshTransform (ops : List MeshOp) : V3 → V3 :=
  ops.foldl (fun t op => fun p => applyOp op (t p)) id

/-- The 6 stored parameters of one trace record: 3 rotation angles in
radians (`p0 p1 p2`) followed by 3 translation offsets (`p3 p4 p5`). -/
structure Params6 where
  p0 : ℚ
  p1 : ℚ
  p2 : ℚ
  p3 : ℚ
  p4 : ℚ
  p5 : ℚ
deriving Repr, DecidableEq

/-- The all-zero parameter fallback `(0.0, 0.0, 0.0, 0.0, 0.0, 0.0)` used at
line 510 of the source when no progression has been loaded. -/
def zeroParams : Params6 := ⟨0, 0, 0, 0, 0, 0⟩

/-- The sequence of mesh operations issued to `circles_mesh` by
`add_tubes` when a progression is loaded (source lines 530-542):
`translate(-center)`; `rotate(parameters[0]*r2d, 1,0,0, local=False)`;
`rotate(parameters[1]*r2d, 0,1,0, local=False)`;
`rotate(parameters[2]*r2d, 0,0,1, local=False)`;
`translate(center + parameters[3..5])`.  The radians-to-degrees factor
`r2d` cancels against the degree convention of `pyqtgraph.rotate`, so each
rotation is by the stored radian angle `parameters[i]`, here represented
through its cosine `cosf (params.pi)` and sine `sinf (params.pi)`. -/
def add_tubes_ops (cosf sinf : ℚ → ℚ) (center : V3) (params : Params6) :
    List MeshOp :=
  [ .translate (-center),
    .rotateX (cosf params.p0) (sinf params.p0),
    .rotateY (cosf params.p1) (sinf params.p1),
    .rotateZ (cosf params.p2) (sinf params.p2),
    .translate (center + ⟨params.p3, params.p4, params.p5⟩) ]

/-- Modelled from the spec: `transform_point_set` of §4.2, written directly
from the spec's words — translate the point by `-center`, rotate about the
fixed world X axis by `rotation[0]`, then about Y by `rotation[1]`, then
about Z by `rotation[2]` (extrinsic, in that fixed order), translate back
by `+center`, then add `translation`. -/
def transform_point_set_spec (cosf sinf : ℚ → ℚ) (center : V3)
    (params : Params6) (p : V3) : V3 :=
  rotZ (cosf params.p2) (sinf params.p2)
    (rotY (cosf params.p1) (sinf params.p1)
      (rotX (cosf params.p0) (sinf params.p0) (p - center)))
    + center + ⟨params.p3, params.p4, params.p5⟩

/-- One record of the optimization progression table: the `Iteration`
field, the 6 stored `Parameters` and the `CostFunctionValue`. -/
structure TraceRecord where
  Iteration : Int
  Parameters : Params6
  CostFunctionValue : ℚ
deriving Repr, DecidableEq

/-- The access `self.logic.progression[it]['Parameters']` of source
lines 507-508, as performed under the in-range guard of line 503
(`it >= 0 and it <= self.logic.number_of_iterations`): positional indexing
into the loaded record table.  Out-of-range indices (never reached by the
guarded code path) yield `none`. -/
def parameters_at (records : List TraceRecord) (it : Int) : Option Params6 :=
  if h : 0 ≤ it ∧ it.toNat < records.length then
    some ((records.get ⟨it.toNat, h.2⟩).Parameters)
  else
    none

/-- The parameter selection of `add_tubes` (source lines 507-510): the
stored parameters of the requested iteration when a progression has been
loaded, the all-zero fallback otherwise. -/
def add_tubes_params (prog : Option (List TraceRecord)) (it : Int) :
    Params6 :=
  match prog with
  | some records => (parameters_at records it).getD zeroParams
  | none => zeroParams

/-- The complete point transformation produced by `add_tubes` for one
in-window iteration: when a progression is loaded the mesh receives the
translate/rotate/rotate/rotate/translate sequence of lines 530-542 (the
whole block is under `if self.logic.progression != None` at line 528);
when it is not, no transform is issued and the mesh shows the
untransformed geometry. -/
def add_tubes_point_transform (cosf sinf : ℚ → ℚ)
    (prog : Option (List TraceRecord)) (it : Int) (center : V3) (p : V3) :
    V3 :=
  match prog with
  | some _ =>
      meshTransform (add_tubes_ops cosf sinf center (add_tubes_params prog it)) p
  | none => p

/-- The observable state of `RegistrationTunerLogic`: the current
iteration, the iteration count, the optionally loaded progression table
and the fixed rotation center. -/
structure TunerState where
  iteration : Int
  number_of_iterations : Int
  progression : Option (List TraceRecord)
  tubes_center : V3
deriving Repr, DecidableEq

/-- Errors raised by the modelled code paths. -/
inductive TunerError where
  /-- `raise ValueError("Invalid iteration")` in `set_iteration`. -/
  | valueError (msg : String)
  /-- `OSError` from `subprocess.call` when the executable is missing. -/
  | osError
  /-- `IndexError` from `progression[-1]` on an empty table. -/
  | indexError
deriving Repr, DecidableEq

/-- `RegistrationTunerLogic.set_iteration` (source lines 83-89): raises
`ValueError` when `value > self.number_of_iterations`; otherwise stores
the value and emits `iteration_changed` only when it differs from the
current one.  The returned `Bool` records whether the signal was
emitted. -/
def set_iteration (st : TunerState) (value : Int) :
    Except TunerError (TunerState × Bool) :=
  if st.number_of_iterations < value then
    .error (.valueError "Invalid iteration")
  else if value ≠ st.iteration then
    .ok ({ st with iteration := value }, true)
  else
    .ok (st, false)

/-- `RegistrationTunerLogic.set_number_of_iterations` (source lines
102-105): stores the value and emits `number_of_iterations_changed` only
when it differs.  The returned `Bool` records whether the signal was
emitted. -/
def set_number_of_iterations (st : TunerState) (value : Int) :
    TunerState × Bool :=
  if value ≠ st.number_of_iterations then
    ({ st with number_of_iterations := value }, true)
  else
    (st, false)

/-- The configuration keys consumed by the orchestrator: I/O paths from
`ParameterGroups[0].Parameters[0..3]`, the optional
`SubSampleTubeTree.Sampling` factor and the two executable paths. -/
structure Config where
  input_volume : String
  input_tubes : String
  output_transform : String
  progression_file : String
  subSampleSampling : Option Nat
  exeSubSampleTubes : String
  exeAnalysis : String
deriving Repr, DecidableEq

/-- `RegistrationTunerLogic.__init__` (source lines 37-54): when
`SubSampleTubeTree` is configured, a temporary file name is allocated,
the subsampling executable is invoked once with
`['--samplingFactor', str(sampling), input_tubes, tmp]`, and the
temporary name becomes `self._subsampled_tubes`; otherwise the original
input tube path is passed through unchanged and no process is spawned.
Returns the resulting `subsampled_tubes` path and the list of external
commands invoked. -/
def tunerInit (cfg : Config) (tmpSubsampledName : String) :
    String × List (List String) :=
  match cfg.subSampleSampling with
  | some sampling =>
      (tmpSubsampledName,
       [[cfg.exeSubSampleTubes, "--samplingFactor", toString sampling,
         cfg.input_tubes, tmpSubsampledName]])
  | none => (cfg.input_tubes, [])

/-- The analysis command line built at source lines 135-139:
`[Executables.Analysis, '--parameterstorestore', config_file.name,
input_volume, input_vessel, output_transform]`, where `input_vessel` is
`io_params[1]['Value']` — the original input tube path, not
`self.subsampled_tubes`.  (Line 135 reads the module-level `config`
global, which in normal execution is the same configuration object.) -/
def run_analysis_command (cfg : Config) (configTmpName : String) :
    List String :=
  [cfg.exeAnalysis, "--parameterstorestore", configTmpName,
   cfg.input_volume, cfg.input_tubes, cfg.output_transform]

/-- Modelled from the spec: §6's analysis executable invocation
`--parameterstore <config_path> <input_volume_path> <input_vessel_path>
<output_transform_path>`, written from the spec's words for comparison
with `run_analysis_command`. -/
def analysis_invocation_spec (cfg : Config) (configPath : String) :
    List String :=
  [cfg.exeAnalysis, "--parameterstore", configPath,
   cfg.input_volume, cfg.input_tubes, cfg.output_transform]

/-- The external commands spawned over one orchestrator session with a
single analysis run: the (possible) subsampling call from `__init__`
followed by the analysis call from `run_analysis`. -/
def session_calls (cfg : Config) (tmpSub tmpCfg : String) :
    List (List String) :=
  (tunerInit cfg tmpSub).2 ++ [run_analysis_command cfg tmpCfg]

/-- The externally visible effects of one `run_analysis` call. -/
structure RunEffects where
  /-- The command line passed to `subprocess.call` (line 143). -/
  analysisCommand : List String
  /-- Whether `os.remove(config_file.name)` (line 144) executed. -/
  removedConfigFile : Bool
deriving Repr, DecidableEq

/-- `RegistrationTunerLogic.run_analysis` (source lines 125-156).  The
external world is supplied as arguments: `callResult` is `none` when
`subprocess.call` raises `OSError` (executable missing) and `some code`
when the process ran and exited with `code`; `records` and `center` are
the contents of the progression file read at lines 148-151.  The code
discards the value returned by `subprocess.call` — a non-zero exit code
is not checked — and then unconditionally removes the temporary config
file, loads the progression table and the fixed parameters, sets the
iteration count to the last record's `Iteration` field (line 154) and
assigns `self.iteration = self.number_of_iterations` through the
`set_iteration` property setter (line 156).  `progression[-1]` on an
empty table raises `IndexError`. -/
def run_analysis (cfg : Config) (configTmpName : String) (st : TunerState)
    (callResult : Option Int) (records : List TraceRecord) (center : V3) :
    Except TunerError TunerState × RunEffects :=
  let cmd := run_analysis_command cfg configTmpName
  match callResult with
  | none =>
      (.error .osError, { analysisCommand := cmd, removedConfigFile := false })
  | some _exitCode =>
      let st1 : TunerState :=
        { st with progression := some records, tubes_center := center }
      match records.getLast? with
      | none =>
          (.error .indexError,
           { analysisCommand := cmd, removedConfigFile := true })
      | some lastRec =>
          let st2 := (set_number_of_iterations st1 lastRec.Iteration).1
          match set_iteration st2 st2.number_of_iterations with
          | .error e =>
              (.error e, { analysisCommand := cmd, removedConfigFile := true })
          | .ok (st3, _) =>
              (.ok st3, { analysisCommand := cmd, removedConfigFile := true })

/-- The resources owned by `RegistrationTunerLogic` that `close` releases,
together with whether `SubSampleTubeTree` is present in the
configuration. -/
structure LogicResources where
  videoFrameDirExists : Bool
  subsampledFileExists : Bool
  hasSubSampleConfig : Bool
deriving Repr, DecidableEq

/-- Filesystem errors raised by `close`. -/
inductive OSErr where
  /-- `shutil.rmtree` on a directory that no longer exists. -/
  | rmtreeMissing
  /-- `os.remove` on a file that no longer exists. -/
  | removeMissing
deriving Repr, DecidableEq

/-- `RegistrationTunerLogic.close` (source lines 63-66):
`shutil.rmtree(self.video_frame_dir)` — which raises when the directory
was already removed — then, when `SubSampleTubeTree` is configured,
`os.remove(self.subsampled_tubes)` — which raises when the file was
already removed. -/
def close (r : LogicResources) : Except OSErr LogicResources :=
  if r.videoFrameDirExists then
    if r.hasSubSampleConfig then
      if r.subsampledFileExists then
        .ok { r with videoFrameDirExists := false, subsampledFileExists := false }
      else
        .error .removeMissing
    else
      .ok { r with videoFrameDirExists := false }
  else
    .error .rmtreeMissing

/-- The fading-trail window of `add_tubes` (source lines 497-500):
`memory = 4`; `target_iterations = tuple(range(iteration,
iteration - memory, -1))` — the descending run `iteration, iteration-1,
iteration-2, iteration-3`. -/
def target_iterations (iteration : Int) : List Int :=
  (List.range 4).map (fun k : Nat => iteration - (k : Int))

/-- The iterations actually rendered by the `add_tubes` loop: the members
of `target_iterations` passing the guard of line 503,
`it >= 0 and it <= self.logic.number_of_iterations`. -/
def processed_iterations (iteration n : Int) : List Int :=
  (target_iterations iteration).filter (fun it => 0 ≤ it ∧ it ≤ n)

/-- Modelled from the spec: `windowed_iterations(current, window_size)` of
§4.2 — the sequence `current, current-1, ..., current-window_size+1`
clipped to `[0, iteration_count]`, written from the spec's words as the
descending enumeration from `min current n` down to
`max 0 (current - window_size + 1)`. -/
def windowed_iterations_spec (current : Int) (window : Nat) (n : Int) :
    List Int :=
  (List.range (min current n + 1 - max 0 (current - (window : Int) + 1)).toNat).map
    (fun k : Nat => min current n - (k : Int))

/-- Concrete configuration used by the counterexamples: subsampling with
factor 2 is configured, and the subsampled temporary path differs from
the original input tube path. -/
def cfgEx : Config :=
  { input_volume := "vol.mha"
    input_tubes := "in.tre"
    output_transform := "out.tfm"
    progression_file := "prog.h5"
    subSampleSampling := some 2
    exeSubSampleTubes := "SubSampleTubes"
    exeAnalysis := "Analysis" }

@[simp]
theorem V3.add_x (a b : V3) : (a + b).x = a.x + b.x := rfl

@[simp]
theorem V3.add_y (a b : V3) : (a + b).y = a.y + b.y := rfl

@[simp]
theorem V3.add_z (a b : V3) : (a + b).z = a.z + b.z := rfl

@[simp]
theorem V3.neg_x (a : V3) : (-a).x = -a.x := rfl

@[simp]
theorem V3.neg_y (a : V3) : (-a).y = -a.y := rfl

@[simp]
theorem V3.neg_z (a : V3) : (-a).z = -a.z := rfl

@[simp]
theorem V3.sub_x (a b : V3) : (a - b).x = a.x - b.x := rfl

@[simp]
theorem V3.sub_y (a b : V3) : (a - b).y = a.y - b.y := rfl

@[simp]
theorem V3.sub_z (a b : V3) : (a - b).z = a.z - b.z := rfl

/-- C10: setting the current iteration (or the number of iterations) to a
value equal to the stored one leaves the state unchanged and emits no
signal; when the value differs, exactly that field changes and the
corresponding changed signal is emitted — the signal fires if and only if
the stored value actually changes. -/
theorem setters_emit_iff_changed (st : TunerState) (v : Int)
    (h : v ≤ st.number_of_iterations) :
    (v = st.iteration → set_iteration st v = .ok (st, false)) ∧
    (v ≠ st.iteration →
      set_iteration st v = .ok ({ st with iteration := v }, true)) ∧
    (v = st.number_of_iterations →
      set_number_of_iterations st v = (st, false)) ∧
    (v ≠ st.number_of_iterations →
      set_number_of_iterations st v =
        ({ st with number_of_iterations := v }, true)) := by
  refine ⟨fun he => ?_, fun hne => ?_, fun he => ?_, fun hne => ?_⟩ <;>
    simp [set_iteration, set_number_of_iterations, *]
  all_goals omega

/-- Witness for `setters_emit_iff_changed` at a concrete state. -/
theorem setters_emit_iff_changed_witness :
    set_iteration ⟨0, 2, none, ⟨0, 0, 0⟩⟩ 0 = .ok (⟨0, 2, none, ⟨0, 0, 0⟩⟩, false) ∧
    set_iteration ⟨0, 2, none, ⟨0, 0, 0⟩⟩ 1 = .ok (⟨1, 2, none, ⟨0, 0, 0⟩⟩, true) := by
  constructor
  · exact (setters_emit_iff_changed ⟨0, 2, none, ⟨0, 0, 0⟩⟩ 0 (by decide)).1 rfl
  · exact (setters_emit_iff_changed ⟨0, 2, none, ⟨0, 0, 0⟩⟩ 1 (by decide)).2.1 (by decide)

/-- C6 counterexample: a query with a negative iteration is NOT rejected.
`set_iteration` on a state with `number_of_iterations = 2` accepts the
value `-1` (the code only checks `value > self.number_of_iterations`,
there is no lower-bound check), contradicting the claim that negative
iterations fail with `IndexOutOfRange`. -/
theorem set_iteration_accepts_negative :
    set_iteration ⟨0, 2, none, ⟨0, 0, 0⟩⟩ (-1) =
      .ok (⟨-1, 2, none, ⟨0, 0, 0⟩⟩, true) := rfl

/-- C6 amended: an in-range query returns exactly the 6 stored parameter
values of the record; a value greater than `number_of_iterations` is
rejected (`ValueError`); any value that is not greater — including every
negative value — is accepted without error. -/
theorem set_iteration_bounds (records : List TraceRecord) (it : Int)
    (h1 : 0 ≤ it) (h2 : it.toNat < records.length)
    (st : TunerState) (v : Int) :
    parameters_at records it =
      some ((records.get ⟨it.toNat, h2⟩).Parameters) ∧
    (st.number_of_iterations < v →
      set_iteration st v = .error (.valueError "Invalid iteration")) ∧
    (v ≤ st.number_of_iterations →
      ∃ st2 b, set_iteration st v = .ok (st2, b)) := by
  refine ⟨?_, fun hv => ?_, fun hv => ?_⟩
  · simp [parameters_at, h1, h2]
  · simp [set_iteration, hv]
  · have hnl : ¬ (st.number_of_iterations < v) := Int.not_lt.mpr hv
    unfold set_iteration
    rw [if_neg hnl]
    by_cases he : v = st.iteration
    · rw [if_neg (by simp [he])]
      exact ⟨st, false, rfl⟩
    · rw [if_pos he]
      exact ⟨{ st with iteration := v }, true, rfl⟩

/-- Witness for `set_iteration_bounds` at concrete inputs; the accepted
value is the negative `-1`. -/
theorem set_iteration_bounds_witness :
    parameters_at [⟨0, ⟨1, 2, 3, 4, 5, 6⟩, 1⟩] 0 = some ⟨1, 2, 3, 4, 5, 6⟩ ∧
    (∃ st2 b, set_iteration ⟨0, 2, none, ⟨0, 0, 0⟩⟩ (-1) = .ok (st2, b)) := by
  have h := set_iteration_bounds [⟨0, ⟨1, 2, 3, 4, 5, 6⟩, 1⟩] 0
    (by decide) (by decide) ⟨0, 2, none, ⟨0, 0, 0⟩⟩ (-1)
  exact ⟨h.1, h.2.2 (by decide)⟩

/-- C5 counterexample: calling `close` twice in a row raises.  Starting
from a state owning both the video-frame directory and the subsampled
file, the first `close` succeeds and releases both, and the second
`close` raises on `shutil.rmtree` of the already-removed directory —
contradicting the claim that the second call is a no-op. -/
theorem close_twice_raises :
    close ⟨true, true, true⟩ = .ok ⟨false, false, true⟩ ∧
    close ⟨false, false, true⟩ = .error .rmtreeMissing :=
  ⟨rfl, rfl⟩

/-- C5 amended: `close` is safe to call exactly once, not idempotent —
after any successful `close`, a second `close` raises, because
`shutil.rmtree` is applied to the already-removed video-frame
directory. -/
theorem close_after_close_raises (r r' : LogicResources)
    (h : close r = .ok r') : close r' = .error .rmtreeMissing := by
  unfold close at h
  split_ifs at h
  all_goals injection h with h4
  all_goals
    subst h4
    rfl

/-- Witness for `close_after_close_raises` at a concrete resource
state. -/
theorem close_after_close_raises_witness :
    close ⟨false, false, false⟩ = .error .rmtreeMissing :=
  close_after_close_raises ⟨true, false, false⟩ ⟨false, false, false⟩ rfl

/-- C2 counterexample: with subsampling configured (factor 2), the
subsampled temporary path is `"sub.tre"`, yet the analysis command's
input-vessel argument (position 4) is the original `"in.tre"`, not the
subsampled path — `run_analysis` reads `io_params[1]['Value']` directly
and never substitutes `self.subsampled_tubes`. -/
theorem analysis_receives_original_not_subsampled :
    (tunerInit cfgEx "sub.tre").1 = "sub.tre" ∧
    (run_analysis_command cfgEx "cfg.json").get? 4 = some "in.tre" ∧
    (run_analysis_command cfgEx "cfg.json").get? 4 ≠ some "sub.tre" := by
  decide

/-- C2 amended: with `SubSampleTubeTree.Sampling` configured, the
subsampling executable is invoked exactly once per orchestrator instance
with arguments `(--samplingFactor <factor>, input_tube_path,
output_temp_path)`, before the analysis executable runs; the analysis
invocation, however, receives the ORIGINAL input tube path as its
input-vessel argument (the subsampled file is used only for the tube
visualization). -/
theorem subsample_once_before_analysis (cfg : Config) (s : Nat)
    (h : cfg.subSampleSampling = some s) (tmpSub tmpCfg : String) :
    (tunerInit cfg tmpSub).1 = tmpSub ∧
    session_calls cfg tmpSub tmpCfg =
      [[cfg.exeSubSampleTubes, "--samplingFactor", toString s,
        cfg.input_tubes, tmpSub],
       run_analysis_command cfg tmpCfg] ∧
    (run_analysis_command cfg tmpCfg).get? 4 = some cfg.input_tubes := by
  refine ⟨?_, ?_, ?_⟩ <;>
    simp [tunerInit, session_calls, run_analysis_command, h]

/-- Witness for `subsample_once_before_analysis` at the concrete
configuration. -/
theorem subsample_once_before_analysis_witness :
    session_calls cfgEx "sub.tre" "cfg.json" =
      [["SubSampleTubes", "--samplingFactor", "2", "in.tre", "sub.tre"],
       run_analysis_command cfgEx "cfg.json"] :=
  (subsample_once_before_analysis cfgEx 2 rfl "sub.tre" "cfg.json").2.1

/-- C3 counterexample: the flag actually passed to the analysis
executable is `--parameterstorestore` (source line 136), not the
`--parameterstore` stated by the claim: the built command differs from
the spec-modelled invocation at position 1. -/
theorem analysis_flag_not_parameterstore :
    (run_analysis_command cfgEx "cfg.json").get? 1 =
      some "--parameterstorestore" ∧
    run_analysis_command cfgEx "cfg.json" ≠
      analysis_invocation_spec cfgEx "cfg.json" := by
  decide

/-- C3 amended: every `run_analysis` call invokes the analysis executable
with the command line `--parameterstorestore <config_path>
<input_volume_path> <input_vessel_path> <output_transform_path>`, where
`<config_path>` is the freshly serialized temporary configuration
file. -/
theorem run_analysis_command_shape (cfg : Config) (tmpCfg : String)
    (st : TunerState) (callResult : Option Int)
    (records : List TraceRecord) (center : V3) :
    (run_analysis cfg tmpCfg st callResult records center).2.analysisCommand =
      [cfg.exeAnalysis, "--parameterstorestore", tmpCfg,
       cfg.input_volume, cfg.input_tubes, cfg.output_transform] := by
  unfold run_analysis run_analysis_command
  cases callResult with
  | none => rfl
  | some code =>
      cases h : records.getLast? with
      | none => rfl
      | some lastRec =>
          simp only
          split <;> rfl

/-- C1: the replayed transform applied by `add_tubes` to the tube point
set is computed in exactly the claimed order — translate every point by
`-center`, rotate about the fixed world X axis by `rotation[0]`, then
about the world Y axis by `rotation[1]`, then about the world Z axis by
`rotation[2]` (each extrinsic, `local=False`, in that fixed X-then-Y-
then-Z order, angles taken from the stored radian parameters of the
requested iteration), then translate by `+center` plus the stored
translation.  The issued mesh-operation sequence (with `pyqtgraph`'s
global-frame premultiplication) acts on points exactly as the spec's
`transform_point_set`. -/
theorem add_tubes_transform_order (cosf sinf : ℚ → ℚ)
    (records : List TraceRecord) (it : Int) (ps : Params6)
    (h : parameters_at records it = some ps) (center : V3)
    (points : List V3) :
    points.map (add_tubes_point_transform cosf sinf (some records) it center) =
      points.map (transform_point_set_spec cosf sinf center ps) := by
  have hps : add_tubes_params (some records) it = ps := by
    simp [add_tubes_params, h]
  have hfun : ∀ p,
      add_tubes_point_transform cosf sinf (some records) it center p =
        transform_point_set_spec cosf sinf center ps p := by
    intro p
    simp only [add_tubes_point_transform, hps, meshTransform, add_tubes_ops,
      List.foldl_cons, List.foldl_nil, applyOp, transform_point_set_spec,
      rotX, rotY, rotZ, id_eq]
    ext <;> simp <;> ring
  exact congrArg (fun g => List.map g points) (funext hfun)

/-- Witness for `add_tubes_transform_order` at a concrete one-record
trace, iteration 0, with symbolic trig functions instantiated. -/
theorem add_tubes_transform_order_witness :
    List.map
        (add_tubes_point_transform (fun _ => 1) (fun _ => 0)
          (some [⟨0, ⟨1, 2, 3, 4, 5, 6⟩, 1⟩]) 0 ⟨1, 1, 1⟩)
        [⟨2, 3, 4⟩] =
      List.map
        (transform_point_set_spec (fun _ => 1) (fun _ => 0) ⟨1, 1, 1⟩
          ⟨1, 2, 3, 4, 5, 6⟩)
        [⟨2, 3, 4⟩] :=
  add_tubes_transform_order (fun _ => 1) (fun _ => 0)
    [⟨0, ⟨1, 2, 3, 4, 5, 6⟩, 1⟩] 0 ⟨1, 2, 3, 4, 5, 6⟩ rfl ⟨1, 1, 1⟩ [⟨2, 3, 4⟩]

/-- C8: applying the replay transform with all six parameters zero is the
identity on every point for any rotation center (given that the supplied
trigonometric functions satisfy `cos 0 = 1` and `sin 0 = 0`), and when no
progression has been loaded the same all-zero fallback parameters are
selected and the mesh receives no transform, so untransformed geometry is
produced. -/
theorem zero_parameter_fallback_identity (cosf sinf : ℚ → ℚ)
    (hc : cosf 0 = 1) (hs : sinf 0 = 0) :
    (∀ center p,
      meshTransform (add_tubes_ops cosf sinf center zeroParams) p = p) ∧
    (∀ it, add_tubes_params none it = zeroParams) ∧
    (∀ it center p,
      add_tubes_point_transform cosf sinf none it center p = p) := by
  refine ⟨fun center p => ?_, fun it => rfl, fun it center p => rfl⟩
  simp only [zeroParams, meshTransform, add_tubes_ops, List.foldl_cons,
    List.foldl_nil, applyOp, rotX, rotY, rotZ, hc, hs, id_eq]
  ext <;> simp

/-- Witness for `zero_parameter_fallback_identity` with concrete trig
functions satisfying the hypotheses at 0, a concrete center and point. -/
theorem zero_parameter_fallback_identity_witness :
    meshTransform
        (add_tubes_ops (fun _ => 1) (fun _ => 0) ⟨1, 2, 3⟩ zeroParams)
        ⟨4, 5, 6⟩ = ⟨4, 5, 6⟩ :=
  (zero_parameter_fallback_identity (fun _ => 1) (fun _ => 0) rfl rfl).1
    ⟨1, 2, 3⟩ ⟨4, 5, 6⟩

/-- Evaluation of `run_analysis` when the process ran (any exit code) and
the progression table is non-empty: the trace is loaded, the iteration
count and the current iteration both become the last record's
`Iteration`, the analysis command was issued and the temporary config
file was removed. -/
theorem run_analysis_eval (cfg : Config) (tmp : String) (st : TunerState)
    (exitCode : Int) (records : List TraceRecord) (center : V3)
    (h : records ≠ []) :
    run_analysis cfg tmp st (some exitCode) records center =
      (.ok { iteration := (records.getLast h).Iteration,
             number_of_iterations := (records.getLast h).Iteration,
             progression := some records,
             tubes_center := center },
       { analysisCommand := run_analysis_command cfg tmp,
         removedConfigFile := true }) := by
  unfold run_analysis
  rw [List.getLast?_eq_getLast records h]
  simp only [set_number_of_iterations, set_iteration]
  split_ifs with h1 h2 h3 h4 <;> simp_all

/-- C4 counterexample: with a non-zero exit code (1) the analysis run does
NOT fail with any error: `subprocess.call`'s return value is discarded,
so `run_analysis` removes the temporary config file and proceeds to load
the progression file, replacing the stored trace — contradicting the
claim that `run()` fails with `ExternalToolError` on non-zero exit and
leaves the previous trace untouched. -/
theorem nonzero_exit_does_not_fail :
    run_analysis cfgEx "cfg.json" ⟨0, 0, none, ⟨0, 0, 0⟩⟩ (some 1)
        [⟨3, ⟨1, 0, 0, 0, 0, 0⟩, 5⟩] ⟨7, 8, 9⟩ =
      (.ok ⟨3, 3, some [⟨3, ⟨1, 0, 0, 0, 0, 0⟩, 5⟩], ⟨7, 8, 9⟩⟩,
       { analysisCommand := ["Analysis", "--parameterstorestore", "cfg.json",
                             "vol.mha", "in.tre", "out.tfm"],
         removedConfigFile := true }) := rfl

/-- C4 amended: whenever `subprocess.call` returns — for zero and
non-zero exit codes alike, the return code being discarded — the
temporary config file is deleted; a non-zero exit raises no error, and
`run_analysis` proceeds to load the progression file, replacing the
previously stored trace rather than leaving it untouched. -/
theorem run_analysis_cleanup_and_ignored_exit (cfg : Config) (tmp : String)
    (st : TunerState) (exitCode : Int) (records : List TraceRecord)
    (center : V3) :
    (run_analysis cfg tmp st (some exitCode) records center).2.removedConfigFile
      = true ∧
    (∀ _h : records ≠ [],
      ∃ st', (run_analysis cfg tmp st (some exitCode) records center).1 =
          .ok st' ∧
        st'.progression = some records) := by
  constructor
  · rcases records with _ | ⟨r, rs⟩
    · rfl
    · rw [run_analysis_eval cfg tmp st exitCode (r :: rs) center
        (List.cons_ne_nil r rs)]
  · intro h
    rw [run_analysis_eval cfg tmp st exitCode records center h]
    exact ⟨_, rfl, rfl⟩

/-- Witness for `run_analysis_cleanup_and_ignored_exit` at a concrete
non-zero exit code and one-record trace. -/
theorem run_analysis_cleanup_and_ignored_exit_witness :
    (run_analysis cfgEx "cfg.json" ⟨0, 0, none, ⟨0, 0, 0⟩⟩ (some 2)
        [⟨4, ⟨0, 0, 0, 0, 0, 0⟩, 5⟩] ⟨0, 0, 0⟩).2.removedConfigFile = true ∧
    (∃ st', (run_analysis cfgEx "cfg.json" ⟨0, 0, none, ⟨0, 0, 0⟩⟩ (some 2)
        [⟨4, ⟨0, 0, 0, 0, 0, 0⟩, 5⟩] ⟨0, 0, 0⟩).1 = .ok st' ∧
      st'.progression = some [⟨4, ⟨0, 0, 0, 0, 0, 0⟩, 5⟩]) := by
  have h := run_analysis_cleanup_and_ignored_exit cfgEx "cfg.json"
    ⟨0, 0, none, ⟨0, 0, 0⟩⟩ 2 [⟨4, ⟨0, 0, 0, 0, 0, 0⟩, 5⟩] ⟨0, 0, 0⟩
  exact ⟨h.1, h.2 (List.cons_ne_nil _ _)⟩

/-- C9: after a run whose progression table is non-empty, the reported
total iteration count equals the `Iteration` field of the last loaded
record (source line 154:
`self.set_number_of_iterations(self.progression[-1]['Iteration'])`). -/
theorem iteration_count_eq_last_record (cfg : Config) (tmp : String)
    (st : TunerState) (exitCode : Int) (records : List TraceRecord)
    (center : V3) (h : records ≠ []) :
    ∃ st', (run_analysis cfg tmp st (some exitCode) records center).1 =
        .ok st' ∧
      st'.number_of_iterations = (records.getLast h).Iteration := by
  rw [run_analysis_eval cfg tmp st exitCode records center h]
  exact ⟨_, rfl, rfl⟩

/-- Witness for `iteration_count_eq_last_record` at a concrete two-record
trace whose last record has `Iteration = 7`. -/
theorem iteration_count_eq_last_record_witness :
    ∃ st', (run_analysis cfgEx "cfg.json" ⟨0, 0, none, ⟨0, 0, 0⟩⟩ (some 0)
        [⟨1, ⟨0, 0, 0, 0, 0, 0⟩, 3⟩, ⟨7, ⟨0, 0, 0, 0, 0, 0⟩, 2⟩]
        ⟨0, 0, 0⟩).1 = .ok st' ∧
      st'.number_of_iterations =
        (([⟨1, ⟨0, 0, 0, 0, 0, 0⟩, 3⟩, ⟨7, ⟨0, 0, 0, 0, 0, 0⟩, 2⟩] :
          List TraceRecord).getLast (List.cons_ne_nil _ _)).Iteration :=
  iteration_count_eq_last_record cfgEx "cfg.json" ⟨0, 0, none, ⟨0, 0, 0⟩⟩ 0
    [⟨1, ⟨0, 0, 0, 0, 0, 0⟩, 3⟩, ⟨7, ⟨0, 0, 0, 0, 0, 0⟩, 2⟩] ⟨0, 0, 0⟩
    (List.cons_ne_nil _ _)

/-- Filtering a descending contiguous run of `w` integers starting at
`current` by membership in `[0, n]` yields the descending run from
`min current n` down to `max 0 (current - w + 1)` — the clipped window of
`windowed_iterations_spec`. -/
theorem filter_window_eq_clipped (w : Nat) (current n : Int) :
    ((List.range w).map (fun k : Nat => current - (k : Int))).filter
        (fun it => decide (0 ≤ it ∧ it ≤ n)) =
      windowed_iterations_spec current w n := by
  induction w generalizing current with
  | zero =>
      unfold windowed_iterations_spec
      rw [show (min current n + 1 - max 0 (current - ((0:Nat) : Int) + 1)).toNat = 0
            by omega]
      simp
  | succ w ih =>
      have hcomp : ((fun k : Nat => current - (k : Int)) ∘ Nat.succ) =
          (fun k : Nat => (current - 1) - (k : Int)) := by
        funext k
        simp only [Function.comp_apply, Nat.cast_succ]
        ring
      rw [List.range_succ_eq_map]
      simp only [List.map_cons, List.map_map, List.filter_cons, Nat.cast_zero,
        sub_zero]
      rw [hcomp, ih (current - 1)]
      unfold windowed_iterations_spec
      by_cases hp : 0 ≤ current ∧ current ≤ n
      · rw [if_pos (by simpa using hp)]
        rw [min_eq_left hp.2, min_eq_left (by omega : current - 1 ≤ n)]
        rw [show (current + 1 - max 0 (current - (((w:Nat)+1 : Nat) : Int) + 1)).toNat
              = ((current - 1) + 1 - max 0 (current - 1 - (w : Int) + 1)).toNat + 1
            by omega]
        rw [List.range_succ_eq_map]
        simp only [List.map_cons, List.map_map, Nat.cast_zero, sub_zero]
        rw [show ((fun k : Nat => current - (k : Int)) ∘ Nat.succ) =
            (fun k : Nat => (current - 1) - (k : Int)) from hcomp]
      · rw [if_neg (by simpa using hp)]
        rcases not_and_or.mp hp with h0 | h1
        · push_neg at h0
          rw [show (min (current - 1) n + 1 - max 0 (current - 1 - (w : Int) + 1)).toNat = 0
                by omega,
              show (min current n + 1 - max 0 (current - (((w:Nat)+1 : Nat) : Int) + 1)).toNat = 0
                by omega]
          rfl
        · push_neg at h1
          rw [min_eq_right (by omega : n ≤ current - 1),
              min_eq_right (by omega : n ≤ current)]
          rw [show (current - 1 - (w : Int) + 1) =
              (current - (((w:Nat)+1 : Nat) : Int) + 1) by push_cast; ring]

/-- C7: the iterations rendered by `add_tubes` are exactly `current,
current-1, ..., current-window_size+1` (with the hard-coded
`window_size = memory = 4`) restricted to `[0, iteration_count]`; in
particular the window at `current = 5` is `[5, 4, 3, 2]` when
`iteration_count ≥ 5`, and the window at `current = 2` is `[2, 1, 0]` —
no negative values. -/
theorem windowed_iterations_correct (current n : Int) :
    processed_iterations current n = windowed_iterations_spec current 4 n ∧
    (5 ≤ n → processed_iterations 5 n = [5, 4, 3, 2]) ∧
    (2 ≤ n → processed_iterations 2 n = [2, 1, 0]) := by
  have hgen : ∀ c, processed_iterations c n = windowed_iterations_spec c 4 n := by
    intro c
    unfold processed_iterations target_iterations
    exact filter_window_eq_clipped 4 c n
  refine ⟨hgen current, fun h5 => ?_, fun h2 => ?_⟩
  · rw [hgen 5]
    unfold windowed_iterations_spec
    rw [min_eq_left h5]
    rfl
  · rw [hgen 2]
    unfold windowed_iterations_spec
    rw [min_eq_left h2]
    rfl

/-- Witness for `windowed_iterations_correct` at concrete iteration
counts. -/
theorem windowed_iterations_correct_witness :
    processed_iterations 5 5 = windowed_iterations_spec 5 4 5 ∧
    processed_iterations 5 5 = [5, 4, 3, 2] ∧
    processed_iterations 2 5 = [2, 1, 0] :=
  ⟨(windowed_iterations_correct 5 5).1,
   (windowed_iterations_correct 5 5).2.1 (by decide),
   (windowed_iterations_correct 2 5).2.2 (by decide)⟩

end TubeTK
